import Mathlib

/-!
Shallow embedding of the duel-trace coordination core of `api_server.py`
(endpoints `/request_trace`, `/get_trace_target`, `/trace_complete`) and of
the SignalFlag operation reachable through `bot.py`.

Modelling conventions:
* Values extracted from a request body or query string are `Option Int` /
  `Option String` (`none` is Python `None`, i.e. an absent or unconvertible
  field).
* Python truthiness of such values is `intTruthy` / `strTruthy`
  (`None`, `0` and `""` are falsy).
* The process-wide mutable `active_trace_request` is an `Option Session`;
  each handler is a function from its inputs and the current slot value to
  the produced response together with the next slot value.
* Every operation in the source runs its read-modify-write under
  `trace_lock`, so a handler invocation is one atomic step; concurrent
  executions are modelled as arbitrary sequential interleavings of those
  atomic steps.
* The parameter extraction in `request_trace` and `trace_complete` uses
  `data.get(key, type=...)` on the plain `dict` returned by
  `request.get_json()`.  CPython's `dict.get` is positional-only and
  accepts no keyword arguments, so that expression raises `TypeError`; the
  extraction step is therefore embedded in the `Except` monad.
-/

/-- The session dict stored into `active_trace_request`
(`api_server.py` lines 192-197). -/
structure Session where
  player1Id : Int
  player2Id : Int
  requester_discord_id : Option String
  status : String
  deriving DecidableEq, Repr

/-- The distinct JSON responses the three trace endpoints produce, one
constructor per `jsonify(...)` site in the handlers. -/
inductive TraceResponse where
  | badRequest (error : String)
  | conflict (message : String)
  | notFound (message : String)
  | ok (message : String)
  | tracing (targetPlayer1Id targetPlayer2Id : Int) (requester_discord_id : Option String)
  | idle
  deriving DecidableEq, Repr

/-- The HTTP status code attached to each response in the source
(`jsonify(...), 400`, `..., 409`, `..., 404`, or the default 200). -/
def httpStatus : TraceResponse → Nat
  | .badRequest _ => 400
  | .conflict _ => 409
  | .notFound _ => 404
  | .ok _ => 200
  | .tracing _ _ _ => 200
  | .idle => 200

/-- The `success` field of the JSON body, when the body carries one. -/
def successField : TraceResponse → Option Bool
  | .badRequest _ => none
  | .conflict _ => some false
  | .notFound _ => some false
  | .ok _ => some true
  | .tracing _ _ _ => none
  | .idle => none

/-- Python truthiness of an extracted integer value: `None` and `0` are
falsy, every other int is truthy. -/
def intTruthy : Option Int → Bool
  | none => false
  | some n => decide (n ≠ 0)

/-- Python truthiness of an extracted string value: `None` and `""` are
falsy, every other string is truthy. -/
def strTruthy : Option String → Bool
  | none => false
  | some s => decide (s ≠ "")

/-- `request_trace` from the presence check onward (`api_server.py` lines
177-200), applied to already-extracted parameter values and the current
slot.  Returns the response and the next slot value. -/
def request_trace_core (player1_id player2_id : Option Int)
    (requester_discord_id : Option String) (slot : Option Session) :
    TraceResponse × Option Session :=
  if !(intTruthy player1_id) || !(intTruthy player2_id) then
    (.badRequest "player1Id and player2Id are required", slot)
  else if player1_id = player2_id then
    (.badRequest "Player1Id and Player2Id must be different", slot)
  else if slot.isSome then
    (.conflict "Another duel trace is already active. Please wait or clear the current trace.",
      slot)
  else
    (.ok "Trace request received and set.",
      some { player1Id := player1_id.getD 0
             player2Id := player2_id.getD 0
             requester_discord_id := requester_discord_id
             status := "pending_roblox_client_pickup" })

/-- `get_trace_target` (`api_server.py` lines 203-226), applied to the
extracted query parameters and the current slot.  The slot component of the
result is the slot value after the call. -/
def get_trace_target (client_id : Option Int) (client_name : Option String)
    (slot : Option Session) : TraceResponse × Option Session :=
  if !(intTruthy client_id) || !(strTruthy client_name) then
    (.badRequest "client_id and client_name are required", slot)
  else
    match slot with
    | some s => (.tracing s.player1Id s.player2Id s.requester_discord_id, some s)
    | none => (.idle, none)

/-- `trace_complete` from the presence check onward (`api_server.py` lines
244-255), applied to already-extracted parameter values and the current
slot.  `duel_id` and `reason` are only logged in the source. -/
def trace_complete_core (client_id : Option Int) (status duel_id reason : Option String)
    (slot : Option Session) : TraceResponse × Option Session :=
  if !(intTruthy client_id) || !(strTruthy status) then
    (.badRequest "clientId and status are required", slot)
  else if slot.isSome then
    (.ok "Trace status received and cleared.", none)
  else
    (.notFound "No active trace to complete.", slot)

/-- A JSON value as it appears in a parsed request body. -/
inductive JsonVal where
  | nullV
  | boolV (b : Bool)
  | intV (n : Int)
  | strV (s : String)
  deriving DecidableEq, Repr

/-- A Python runtime error raised by a handler. -/
inductive PyError where
  | typeError (msg : String)
  deriving DecidableEq, Repr

/-- `data.get(key, type=int)` where `data` is the plain `dict` returned by
`request.get_json()` (`api_server.py` lines 173-174 and 239).  CPython's
`dict.get` is positional-only and rejects every keyword argument, so the
call raises `TypeError` regardless of the dict contents. -/
def dictGetTypeInt (data : List (String × JsonVal)) (key : String) :
    Except PyError (Option Int) :=
  .error (.typeError "get() takes no keyword arguments")

/-- `data.get(key, type=str)` on the plain `dict` returned by
`request.get_json()` (`api_server.py` lines 175 and 240-242); raises
`TypeError` exactly like `dictGetTypeInt`. -/
def dictGetTypeStr (data : List (String × JsonVal)) (key : String) :
    Except PyError (Option String) :=
  .error (.typeError "get() takes no keyword arguments")

/-- The body of `request_trace` after the `is_json` and api-key checks
(`api_server.py` lines 173-200): extract `player1Id`, `player2Id` and
`requester_discord_id` from the JSON dict, then run the slot logic.
A raised `TypeError` aborts the handler (Flask maps it to HTTP 500). -/
def request_trace (data : List (String × JsonVal)) (slot : Option Session) :
    Except PyError (TraceResponse × Option Session) := do
  let player1_id ← dictGetTypeInt data "player1Id"
  let player2_id ← dictGetTypeInt data "player2Id"
  let requester_discord_id ← dictGetTypeStr data "requester_discord_id"
  pure (request_trace_core player1_id player2_id requester_discord_id slot)

/-- The body of `trace_complete` after the `is_json` check
(`api_server.py` lines 239-255): extract `clientId`, `status`, `duelId`
and `reason` from the JSON dict, then run the slot logic.  A raised
`TypeError` aborts the handler (Flask maps it to HTTP 500). -/
def trace_complete (data : List (String × JsonVal)) (slot : Option Session) :
    Except PyError (TraceResponse × Option Session) := do
  let client_id ← dictGetTypeInt data "clientId"
  let status ← dictGetTypeStr data "status"
  let duel_id ← dictGetTypeStr data "duelId"
  let reason ← dictGetTypeStr data "reason"
  pure (trace_complete_core client_id status duel_id reason slot)

/-- Modelled from the spec: the SignalFlag Raise operation.  The
`/set_trigger` handler that `bot.py`'s `trigger_test` posts to is not part
of the given sources; spec section 4.2 defines Raise as always succeeding
with `Ack` and setting the flag `true`, idempotently.  Input is the current
`is_trigger_pending` value; output is the success flag of the `Ack`
response paired with the new flag value. -/
def raiseFlag (is_trigger_pending : Bool) : Bool × Bool :=
  (true, true)

/-- Modelled from the spec: the SignalFlag Peek operation, a pure read of
the current `is_trigger_pending` value (spec section 4.2). -/
def peekFlag (is_trigger_pending : Bool) : Bool :=
  is_trigger_pending

/-- Whether a response is the success acknowledgement of `request_trace`. -/
def isAck : TraceResponse → Bool
  | .ok _ => true
  | _ => false

/-- Whether a response is the 409 conflict rejection of `request_trace`. -/
def isConflict : TraceResponse → Bool
  | .conflict _ => true
  | _ => false

/-- Whether a response is one of the two `get_trace_target` snapshot
shapes (`status: tracing` or `status: idle`). -/
def isSnapshot : TraceResponse → Bool
  | .tracing _ _ _ => true
  | .idle => true
  | _ => false

/-- Run a list of `request_trace_core` calls one after another, starting
from the given slot: the serialization of concurrent Admit requests, each
of which executes atomically under `trace_lock`.  Returns the list of
responses in serialization order and the final slot. -/
def runAdmits : List (Int × Int × Option String) → Option Session →
    List TraceResponse × Option Session
  | [], slot => ([], slot)
  | (a, b, ref) :: rest, slot =>
    let step := request_trace_core (some a) (some b) ref slot
    let next := runAdmits rest step.2
    (step.1 :: next.1, next.2)

/-- Helper: any `request_trace_core` call made while the slot is occupied
leaves the slot unchanged and never returns the success acknowledgement. -/
theorem request_trace_core_occupied (p q : Option Int) (r : Option String) (s : Session) :
    (request_trace_core p q r (some s)).2 = some s ∧
    isAck (request_trace_core p q r (some s)).1 = false := by
  unfold request_trace_core
  split_ifs <;> simp_all [isAck]

/-- Claim C1: with well-formed (truthy) distinct identifiers and an empty
slot, `request_trace_core` stores exactly the session
`{player1Id, player2Id, requester_discord_id, pending_roblox_client_pickup}`
and returns the success acknowledgement; on the resulting occupied slot no
subsequent call succeeds, so a fresh slot admits exactly once. -/
theorem request_trace_core_fresh_succeeds_once (a b : Int) (ref : Option String)
    (ha : a ≠ 0) (hb : b ≠ 0) (hab : a ≠ b) :
    request_trace_core (some a) (some b) ref none =
      (.ok "Trace request received and set.",
        some { player1Id := a, player2Id := b, requester_discord_id := ref,
               status := "pending_roblox_client_pickup" }) ∧
    ∀ p q r2, isAck (request_trace_core p q r2
        (request_trace_core (some a) (some b) ref none).2).1 = false := by
  have h1 : request_trace_core (some a) (some b) ref none =
      (.ok "Trace request received and set.",
        some { player1Id := a, player2Id := b, requester_discord_id := ref,
               status := "pending_roblox_client_pickup" }) := by
    simp [request_trace_core, intTruthy, ha, hb, hab]
  refine ⟨h1, fun p q r2 => ?_⟩
  rw [h1]
  exact (request_trace_core_occupied p q r2 _).2

/-- Claim C1 witness at concrete inputs 111, 222, requester u1, with a
second call 333, 444 rejected afterwards. -/
theorem request_trace_core_fresh_succeeds_once_witness :
    request_trace_core (some 111) (some 222) (some "u1") none =
      (.ok "Trace request received and set.",
        some { player1Id := 111, player2Id := 222, requester_discord_id := some "u1",
               status := "pending_roblox_client_pickup" }) ∧
    isAck (request_trace_core (some 333) (some 444) none
        (request_trace_core (some 111) (some 222) (some "u1") none).2).1 = false := by
  have h := request_trace_core_fresh_succeeds_once 111 222 (some "u1")
    (by decide) (by decide) (by decide)
  exact ⟨h.1, h.2 (some 333) (some 444) none⟩

/-- Claim C2 counterexample: with the slot occupied, a call with equal
identifiers returns the 400 bad-request response from the equality check,
not the 409 conflict the claim asserts for every call made while the slot
is occupied. -/
theorem request_trace_core_occupied_equal_ids_not_conflict :
    (request_trace_core (some 5) (some 5) none
        (some { player1Id := 1, player2Id := 2, requester_discord_id := none,
                status := "pending_roblox_client_pickup" })).1 =
      .badRequest "Player1Id and Player2Id must be different" ∧
    httpStatus (request_trace_core (some 5) (some 5) none
        (some { player1Id := 1, player2Id := 2, requester_discord_id := none,
                status := "pending_roblox_client_pickup" })).1 ≠ 409 := by
  constructor
  · rfl
  · decide

/-- Claim C2 (amended): every call made while the slot is occupied leaves
the occupant unchanged, and every such call whose arguments pass the
validation (truthy and distinct identifiers) receives the 409 conflict
response with `success: false`. -/
theorem request_trace_core_occupied_frame (p q : Option Int) (r : Option String)
    (s : Session) :
    (request_trace_core p q r (some s)).2 = some s ∧
    (intTruthy p = true → intTruthy q = true → p ≠ q →
      (request_trace_core p q r (some s)).1 =
        .conflict "Another duel trace is already active. Please wait or clear the current trace." ∧
      httpStatus (request_trace_core p q r (some s)).1 = 409 ∧
      successField (request_trace_core p q r (some s)).1 = some false) := by
  constructor
  · unfold request_trace_core
    split_ifs <;> simp_all
  · intro hp hq hpq
    simp [request_trace_core, hp, hq, hpq, httpStatus, successField]

/-- Claim C2 witness: occupied slot, distinct truthy identifiers 333 and
444 receive the conflict response and the occupant 1, 2 is kept. -/
theorem request_trace_core_occupied_frame_witness :
    (request_trace_core (some 333) (some 444) none
        (some { player1Id := 1, player2Id := 2, requester_discord_id := none,
                status := "pending_roblox_client_pickup" })).2 =
      some { player1Id := 1, player2Id := 2, requester_discord_id := none,
             status := "pending_roblox_client_pickup" } ∧
    (request_trace_core (some 333) (some 444) none
        (some { player1Id := 1, player2Id := 2, requester_discord_id := none,
                status := "pending_roblox_client_pickup" })).1 =
      .conflict "Another duel trace is already active. Please wait or clear the current trace." := by
  have h := request_trace_core_occupied_frame (some 333) (some 444) none
    { player1Id := 1, player2Id := 2, requester_discord_id := none,
      status := "pending_roblox_client_pickup" }
  exact ⟨h.1, (h.2 (by decide) (by decide) (by decide)).1⟩

/-- Claim C3: starting from an empty slot, a Peek after a successful
Admit of `a`, `b`, `ref` observes the tracing snapshot with exactly those
fields, a Resolve on that state succeeds, and a Peek after that Resolve
observes the idle snapshot. -/
theorem trace_round_trip (a b : Int) (ref : Option String) (c : Int) (cn : String)
    (cid : Int) (st : String) (did rsn : Option String)
    (ha : a ≠ 0) (hb : b ≠ 0) (hab : a ≠ b) (hc : c ≠ 0) (hcn : cn ≠ "")
    (hcid : cid ≠ 0) (hst : st ≠ "") :
    (get_trace_target (some c) (some cn)
        (request_trace_core (some a) (some b) ref none).2).1 =
      .tracing a b ref ∧
    (trace_complete_core (some cid) (some st) did rsn
        (request_trace_core (some a) (some b) ref none).2).1 =
      .ok "Trace status received and cleared." ∧
    (get_trace_target (some c) (some cn)
        (trace_complete_core (some cid) (some st) did rsn
            (request_trace_core (some a) (some b) ref none).2).2).1 =
      .idle := by
  have hslot : (request_trace_core (some a) (some b) ref none).2 =
      some { player1Id := a, player2Id := b, requester_discord_id := ref,
             status := "pending_roblox_client_pickup" } := by
    simp [request_trace_core, intTruthy, ha, hb, hab]
  rw [hslot]
  refine ⟨?_, ?_, ?_⟩ <;>
    simp [get_trace_target, trace_complete_core, intTruthy, strTruthy,
      hc, hcn, hcid, hst]

/-- Claim C3 witness at the concrete scenario 111, 222, requester u1,
polled by client 9 named rbx and resolved by client 7 as completed. -/
theorem trace_round_trip_witness :
    (get_trace_target (some 9) (some "rbx")
        (request_trace_core (some 111) (some 222) (some "u1") none).2).1 =
      .tracing 111 222 (some "u1") ∧
    (trace_complete_core (some 7) (some "completed") none none
        (request_trace_core (some 111) (some 222) (some "u1") none).2).1 =
      .ok "Trace status received and cleared." ∧
    (get_trace_target (some 9) (some "rbx")
        (trace_complete_core (some 7) (some "completed") none none
            (request_trace_core (some 111) (some 222) (some "u1") none).2).2).1 =
      .idle :=
  trace_round_trip 111 222 (some "u1") 9 "rbx" 7 "completed" none none
    (by decide) (by decide) (by decide) (by decide) (by decide)
    (by decide) (by decide)

/-- Claim C4: for every identifier `a` (including the falsy `0`), a call
with `player1Id = player2Id = a` is answered with a 400 bad-request
response and the slot is left unchanged, whatever it held. -/
theorem request_trace_core_equal_ids (a : Int) (ref : Option String)
    (slot : Option Session) :
    httpStatus (request_trace_core (some a) (some a) ref slot).1 = 400 ∧
    (request_trace_core (some a) (some a) ref slot).2 = slot := by
  by_cases h : a = 0
  · subst h
    simp [request_trace_core, intTruthy, httpStatus]
  · simp [request_trace_core, intTruthy, h, httpStatus]

/-- Claim C5 counterexample: a Resolve call on the empty slot whose
`clientId` is the falsy `0` is answered with the 400 bad-request response,
not the 404 not-found the claim asserts for every call on an empty slot. -/
theorem trace_complete_core_empty_untruthy_client :
    (trace_complete_core (some 0) (some "completed") none none none).1 =
      .badRequest "clientId and status are required" ∧
    httpStatus (trace_complete_core (some 0) (some "completed") none none none).1 ≠
      404 := by
  constructor
  · rfl
  · decide

/-- Claim C5 (amended): every Resolve call on an empty slot leaves the
slot empty, and every such call whose arguments pass the validation
(truthy `clientId` and non-empty `status`) receives the 404 not-found
response. -/
theorem trace_complete_core_empty_slot (cid : Option Int) (st did rsn : Option String) :
    (trace_complete_core cid st did rsn none).2 = none ∧
    (intTruthy cid = true → strTruthy st = true →
      (trace_complete_core cid st did rsn none).1 =
        .notFound "No active trace to complete." ∧
      httpStatus (trace_complete_core cid st did rsn none).1 = 404 ∧
      successField (trace_complete_core cid st did rsn none).1 = some false) := by
  constructor
  · unfold trace_complete_core
    split_ifs <;> simp_all
  · intro h1 h2
    simp [trace_complete_core, h1, h2, httpStatus, successField]

/-- Claim C5 witness: Resolve by client 3 with status aborted on the empty
slot is answered not-found and the slot stays empty. -/
theorem trace_complete_core_empty_slot_witness :
    (trace_complete_core (some 3) (some "aborted") none none none).2 = none ∧
    (trace_complete_core (some 3) (some "aborted") none none none).1 =
      .notFound "No active trace to complete." := by
  have h := trace_complete_core_empty_slot (some 3) (some "aborted") none none
  exact ⟨h.1, (h.2 (by decide) (by decide)).1⟩

/-- Claim C6: contrary to the claim, both handlers raise.  For every JSON
body and every slot value, the `request_trace` and `trace_complete`
handler bodies abort with `TypeError` at the first parameter extraction,
because `dict.get` accepts no keyword arguments such as `type=int`; no
typed result is ever produced for the caller (Flask answers HTTP 500). -/
theorem request_trace_trace_complete_always_crash
    (data : List (String × JsonVal)) (slot : Option Session) :
    request_trace data slot =
      .error (.typeError "get() takes no keyword arguments") ∧
    trace_complete data slot =
      .error (.typeError "get() takes no keyword arguments") :=
  ⟨rfl, rfl⟩

/-- Claim C7 counterexample: a Peek call with the `client_id` parameter
absent is answered with the 400 bad-request response instead of a snapshot
of the (empty) slot, so not every call returns a snapshot. -/
theorem get_trace_target_missing_client_no_snapshot :
    isSnapshot (get_trace_target none (some "observer") none).1 = false ∧
    (get_trace_target none (some "observer") none).1 =
      .badRequest "client_id and client_name are required" := by
  constructor
  · rfl
  · rfl

/-- Claim C7 (amended): a Peek call never changes the slot, whatever its
inputs; every call with truthy `client_id` and `client_name` returns a
snapshot of the current slot: the tracing view carrying the occupant
fields when the slot is occupied, the idle view when it is empty. -/
theorem get_trace_target_pure_read (cid : Option Int) (cn : Option String)
    (slot : Option Session) :
    (get_trace_target cid cn slot).2 = slot ∧
    (intTruthy cid = true → strTruthy cn = true →
      isSnapshot (get_trace_target cid cn slot).1 = true ∧
      (get_trace_target cid cn slot).1 =
        (match slot with
         | some s => .tracing s.player1Id s.player2Id s.requester_discord_id
         | none => .idle)) := by
  constructor
  · unfold get_trace_target
    split_ifs with h
    · rfl
    · cases slot <;> rfl
  · intro h1 h2
    cases slot <;> simp [get_trace_target, h1, h2, isSnapshot]

/-- Claim C7 witness: Peek by client 4 named observer on the empty slot
returns the idle snapshot and leaves the slot empty. -/
theorem get_trace_target_pure_read_witness :
    (get_trace_target (some 4) (some "observer") none).2 = none ∧
    (get_trace_target (some 4) (some "observer") none).1 = .idle := by
  have h := get_trace_target_pure_read (some 4) (some "observer") none
  exact ⟨h.1, ((h.2 (by decide) (by decide)).2)⟩

/-- Claim C8: Raise always reports success with no precondition, raising
twice yields exactly the same result and flag state as raising once, and a
Peek after the double Raise (as after the single one) observes `true`. -/
theorem raiseFlag_idempotent (s : Bool) :
    (raiseFlag s).1 = true ∧
    raiseFlag (raiseFlag s).2 = raiseFlag s ∧
    peekFlag (raiseFlag (raiseFlag s).2).2 = true ∧
    peekFlag (raiseFlag s).2 = true := by
  simp [raiseFlag, peekFlag]

/-- Claim C10: a Resolve call on an occupied slot with a truthy `clientId`
and any non-empty `status` string clears the slot and reports success; the
`status` value is never compared with the completed/aborted enumeration. -/
theorem trace_complete_core_ignores_outcome (cid : Int) (st : String)
    (did rsn : Option String) (s : Session) (hcid : cid ≠ 0) (hst : st ≠ "") :
    trace_complete_core (some cid) (some st) did rsn (some s) =
      (.ok "Trace status received and cleared.", none) := by
  simp [trace_complete_core, intTruthy, strTruthy, hcid, hst]

/-- Claim C10 witness: client 7 resolving with the status string garbage,
outside the completed/aborted enumeration, still clears the occupied slot
and is acknowledged. -/
theorem trace_complete_core_ignores_outcome_witness :
    trace_complete_core (some 7) (some "garbage") none none
        (some { player1Id := 1, player2Id := 2, requester_discord_id := none,
                status := "pending_roblox_client_pickup" }) =
      (.ok "Trace status received and cleared.", none) :=
  trace_complete_core_ignores_outcome 7 "garbage" none none
    { player1Id := 1, player2Id := 2, requester_discord_id := none,
      status := "pending_roblox_client_pickup" }
    (by decide) (by decide)

/-- Helper: a run of valid Admit calls against an occupied slot answers
every call with the conflict response and never changes the occupant. -/
theorem runAdmits_occupied (reqs : List (Int × Int × Option String)) (s : Session)
    (hv : ∀ r ∈ reqs, r.1 ≠ 0 ∧ r.2.1 ≠ 0 ∧ r.1 ≠ r.2.1) :
    runAdmits reqs (some s) =
      (reqs.map fun _ =>
        TraceResponse.conflict
          "Another duel trace is already active. Please wait or clear the current trace.",
        some s) := by
  induction reqs with
  | nil => rfl
  | cons hd tl ih =>
    obtain ⟨a, b, ref⟩ := hd
    have hhd := hv (a, b, ref) (by simp)
    have hstep : request_trace_core (some a) (some b) ref (some s) =
        (.conflict "Another duel trace is already active. Please wait or clear the current trace.",
          some s) := by
      simp [request_trace_core, intTruthy, hhd.1, hhd.2.1, hhd.2.2]
    have htl := ih fun r hr => hv r (List.mem_cons_of_mem _ hr)
    simp [runAdmits, hstep, htl]

/-- Helper: counting with a predicate over a replicated element. -/
theorem countP_replicate {α : Type} (p : α → Bool) (n : Nat) (x : α) :
    List.countP p (List.replicate n x) = if p x then n else 0 := by
  induction n with
  | zero => simp
  | succ k ih =>
    by_cases h : p x <;> simp [List.replicate_succ, List.countP_cons, h, ih]

/-- Claim C9: when a nonempty batch of Admit calls with distinct valid
argument pairs races on the empty slot, each call being one atomic
critical section under the lock, exactly one call in the serialization
order is acknowledged, the remaining ones all receive the conflict
response, and the slot afterwards holds exactly the winning session (the
first call in the serialization order). -/
theorem runAdmits_exactly_one_winner (reqs : List (Int × Int × Option String))
    (hne : reqs ≠ [])
    (hv : ∀ r ∈ reqs, r.1 ≠ 0 ∧ r.2.1 ≠ 0 ∧ r.1 ≠ r.2.1) :
    (runAdmits reqs none).1.countP isAck = 1 ∧
    (runAdmits reqs none).1.countP isConflict = reqs.length - 1 ∧
    (runAdmits reqs none).2 =
      some { player1Id := (reqs.head hne).1, player2Id := (reqs.head hne).2.1,
             requester_discord_id := (reqs.head hne).2.2,
             status := "pending_roblox_client_pickup" } := by
  cases reqs with
  | nil => exact absurd rfl hne
  | cons hd tl =>
    obtain ⟨a, b, ref⟩ := hd
    have hhd := hv (a, b, ref) (by simp)
    have hstep : request_trace_core (some a) (some b) ref none =
        (.ok "Trace request received and set.",
          some { player1Id := a, player2Id := b, requester_discord_id := ref,
                 status := "pending_roblox_client_pickup" }) := by
      simp [request_trace_core, intTruthy, hhd.1, hhd.2.1, hhd.2.2]
    have htl := runAdmits_occupied tl
      { player1Id := a, player2Id := b, requester_discord_id := ref,
        status := "pending_roblox_client_pickup" }
      (fun r hr => hv r (List.mem_cons_of_mem _ hr))
    refine ⟨?_, ?_, ?_⟩ <;>
      simp [runAdmits, hstep, htl, isAck, isConflict, List.countP_cons,
        List.countP_map, Function.comp, countP_replicate]

/-- Claim C9 witness: the batch of two valid Admit calls 111, 222 by u1
and 333, 444 serialized on the empty slot yields one acknowledgement, one
conflict, and the slot holds the first session. -/
theorem runAdmits_exactly_one_winner_witness :
    (runAdmits [(111, 222, some "u1"), (333, 444, none)] none).1.countP isAck = 1 ∧
    (runAdmits [(111, 222, some "u1"), (333, 444, none)] none).1.countP isConflict = 1 ∧
    (runAdmits [(111, 222, some "u1"), (333, 444, none)] none).2 =
      some { player1Id := 111, player2Id := 222, requester_discord_id := some "u1",
             status := "pending_roblox_client_pickup" } := by
  have h := runAdmits_exactly_one_winner [(111, 222, some "u1"), (333, 444, none)]
    (by decide) (by decide)
  exact ⟨h.1, h.2.1, h.2.2⟩
